import Mathlib

/-!
Verification of the AI-Hub multi-modal chat backend (FastAPI, Python) against its
natural-language specification.

Shallow embedding of:
  * `backend/schemas.py`      — request/response models and pydantic validation,
  * `backend/routers/chat.py` — the fan-out dispatcher (`call_single_model`, `chat`)
    and the session-scoped `add_message` endpoint with its context builder,
  * `backend/services/storage.py` — the in-memory session store (`ChatStorage`),
  * `backend/services/auth.py` — the API-key guard (`verify_api_key`),
  * `backend/services/providers.py` — the OpenAI provider adapter (`generate`).

External effects (the HTTPS calls made by provider adapters, the wall clock, the
environment) are passed in explicitly as oracle parameters; everything else is
translated line by line from the source.  Python timestamps are ISO-8601 UTC
strings and remain `String` here; Python floats carry no arithmetic in the
relevant paths and are embedded as `Rat`.
-/

/-- Embeds `schemas.ModelResponse`: the per-provider result record.  The `usage`
map is opaque to the core and embedded as an association list. -/
structure ModelResponse where
  model : String
  output : String
  latency_ms : Nat
  finish_reason : Option String := none
  usage : Option (List (String × String)) := none
  error : Option String := none
deriving Repr, DecidableEq

/-- Embeds `schemas.ChatRequest` after pydantic validation. -/
structure ChatRequest where
  prompt : String
  models : List String
  system_prompt : Option String
  temperature : Option Rat
  max_tokens : Option Nat
deriving Repr, DecidableEq

/-- Embeds `schemas.ChatResponse`. -/
structure ChatResponse where
  responses : List ModelResponse
deriving Repr, DecidableEq

/-- Embeds `schemas.ChatMessage`.  `role` is `"user"` or `"assistant"`;
`model_responses` is populated only for assistant messages. -/
structure ChatMessage where
  role : String
  content : String
  timestamp : String
  model_responses : Option (List ModelResponse) := none
deriving Repr, DecidableEq

/-- Embeds `schemas.ChatSession`. -/
structure ChatSession where
  id : String
  title : String
  messages : List ChatMessage
  created_at : String
  updated_at : String
deriving Repr, DecidableEq

/-- Embeds `schemas.AddMessageRequest` after pydantic validation. -/
structure AddMessageRequest where
  session_id : String
  content : String
  models : List String
  system_prompt : Option String
  temperature : Option Rat
  max_tokens : Option Nat
deriving Repr, DecidableEq

/-! ### Pydantic field validation (`schemas.py`)

A raw inbound JSON field is `Option (Option α)`: the outer `none` means the
field is omitted (pydantic substitutes the declared default), `some none` means
an explicit JSON `null` (accepted, the field stays `None`), and `some (some v)`
means an explicit value, which the `ge`/`le` bounds check. -/

/-- Embeds `temperature: Optional[float] = Field(default=0.7, ge=0.0, le=2.0)`,
shared verbatim by `ChatRequest` and `AddMessageRequest`. -/
def validate_temperature (raw : Option (Option Rat)) : Except String (Option Rat) :=
  match raw with
  | none => .ok (some (7 / 10))
  | some none => .ok none
  | some (some t) =>
      if 0 ≤ t ∧ t ≤ 2 then .ok (some t)
      else .error "temperature must be in [0.0, 2.0]"

/-- Embeds `max_tokens: Optional[int] = Field(default=None, ge=1)`. -/
def validate_max_tokens (raw : Option (Option Nat)) : Except String (Option Nat) :=
  match raw with
  | none => .ok none
  | some none => .ok none
  | some (some n) =>
      if 1 ≤ n then .ok (some n)
      else .error "max_tokens must be >= 1"

/-- Raw (pre-validation) shape of an inbound `/chat` body. -/
structure RawChatRequest where
  prompt : String
  models : List String
  system_prompt : Option String
  temperature : Option (Option Rat)
  max_tokens : Option (Option Nat)
deriving Repr, DecidableEq

/-- Raw (pre-validation) shape of an inbound add-message body. -/
structure RawAddMessageRequest where
  session_id : String
  content : String
  models : List String
  system_prompt : Option String
  temperature : Option (Option Rat)
  max_tokens : Option (Option Nat)
deriving Repr, DecidableEq

/-- Embeds pydantic validation of `ChatRequest`:
`prompt` has `min_length=1`, `models` has `min_items=1`, `temperature` and
`max_tokens` as above. -/
def parseChatRequest (raw : RawChatRequest) : Except String ChatRequest := do
  if raw.prompt.length < 1 then
    throw "prompt must be non-empty"
  if raw.models.length < 1 then
    throw "models must be non-empty"
  let t ← validate_temperature raw.temperature
  let mt ← validate_max_tokens raw.max_tokens
  pure ⟨raw.prompt, raw.models, raw.system_prompt, t, mt⟩

/-- Embeds pydantic validation of `AddMessageRequest` (no length constraints on
`content` or `models` in the source). -/
def parseAddMessageRequest (raw : RawAddMessageRequest) : Except String AddMessageRequest := do
  let t ← validate_temperature raw.temperature
  let mt ← validate_max_tokens raw.max_tokens
  pure ⟨raw.session_id, raw.content, raw.models, raw.system_prompt, t, mt⟩

/-! ### Provider registry and fan-out dispatch (`routers/chat.py`) -/

/-- Key set of the module-level `PROVIDER_MAP` dict in `routers/chat.py`. -/
def PROVIDER_MAP_keys : List String :=
  ["openai", "anthropic", "google", "mistral", "perplexity"]

/-- Oracle for an adapter coroutine `provider.generate(prompt=…, system=…,
temperature=…, max_tokens=…)`: indexed by the provider key and the four
arguments the router passes; `.error msg` embeds the coroutine raising an
exception with message `str(exc) = msg`, `.ok r` embeds a normal return. -/
abbrev GenBehavior :=
  String → String → Option String → Option Rat → Option Nat → Except String ModelResponse

/-- Embeds `call_single_model` (`routers/chat.py`, lines 31–51): registry lookup
with the synthetic "Unknown provider" result, then the adapter call guarded by
`try/except Exception`.  The function is total: no exception escapes. -/
def call_single_model (gen : GenBehavior) (provider_key : String) (req : ChatRequest) :
    ModelResponse :=
  if provider_key ∈ PROVIDER_MAP_keys then
    match gen provider_key req.prompt req.system_prompt req.temperature req.max_tokens with
    | .ok r => r
    | .error exc =>
        { model := provider_key, output := "", latency_ms := 0, error := some exc }
  else
    { model := provider_key, output := "", latency_ms := 0, error := some "Unknown provider" }

/-- Embeds the `/chat` endpoint body (`routers/chat.py`, lines 53–60):
`asyncio.gather` over one `call_single_model` task per entry of
`payload.models`, which returns the awaited results in task order. -/
def chat (gen : GenBehavior) (payload : ChatRequest) : ChatResponse :=
  ⟨payload.models.map (fun model_key => call_single_model gen model_key payload)⟩

example :
    chat (fun k _ _ _ _ => .ok ⟨k, "4", 10, none, none, none⟩)
      ⟨"2+2?", ["openai", "unknown", "openai"], none, some (7 / 10), none⟩ =
    ⟨[⟨"openai", "4", 10, none, none, none⟩,
      ⟨"unknown", "", 0, none, none, some "Unknown provider"⟩,
      ⟨"openai", "4", 10, none, none, none⟩]⟩ := by
  decide

/-! ### OpenAI provider adapter (`services/providers.py`, `OpenAIProvider`)

The outbound HTTPS POST and the JSON decoding of its body are external effects,
embedded as an oracle from the wire payload to an `HttpOutcome`. -/

/-- Wire payload built by `OpenAIProvider.generate` (`providers.py`, lines
63–74).  A field that Python leaves out of the dict is `none` here; `messages`
is a list of `(role, content)` pairs. -/
structure OpenAIPayload where
  model : String
  messages : List (String × String)
  temperature : Option Rat
  max_tokens : Option Nat
deriving Repr, DecidableEq

/-- Builds the OpenAI chat-completions payload exactly as `providers.py` lines
63–74: an optional leading system message, then the user message; `temperature`
and `max_tokens` are included only when not `None`. -/
def openai_build_payload (model : String) (prompt : String) (system : Option String)
    (temperature : Option Rat) (max_tokens : Option Nat) : OpenAIPayload :=
  { model := model
  , messages :=
      (match system with
       | some s => [("system", s)]
       | none => []) ++ [("user", prompt)]
  , temperature := temperature
  , max_tokens := max_tokens }

/-- Fields the adapter extracts from a decoded OpenAI response body via the
`.get(…)` chains on lines 83–85 of `providers.py` (missing keys default to
`""`/`None`). -/
structure ParsedOpenAI where
  content : String
  finish_reason : Option String
  usage : Option (List (String × String))
deriving Repr, DecidableEq

/-- Outcome of the adapter's outbound HTTPS POST:
`raised msg elapsedMs` embeds `httpx` raising (connection error or the 60 s
timeout) after `elapsedMs` of wall-clock time; `response status text json
elapsedMs` embeds a completed exchange, where `json` is the result of
`resp.json()` followed by the field-extraction chain (`.error` embeds that code
raising, e.g. a JSON decode error or `choices == []` making `[0]` raise). -/
inductive HttpOutcome where
  | raised (msg : String) (elapsedMs : Nat)
  | response (status : Nat) (text : String) (json : Except String ParsedOpenAI) (elapsedMs : Nat)
deriving Repr

/-- Embeds `OpenAIProvider.generate` (`providers.py`, lines 59–86).  `net` is
the network oracle, `default_model` the `OPENAI_MODEL` environment value.
Result `.error msg` embeds the coroutine raising with message `msg`: the
source has no `try/except`, so a transport error propagates to the caller and
the elapsed time measured by `time.perf_counter()` is discarded.  On a
completed exchange, `elapsed` is bound right after the POST returns, so both
the ≥400 branch and the success branch report it as `latency_ms`. -/
def openai_generate (net : OpenAIPayload → HttpOutcome) (default_model : Option String)
    (prompt : String) (system : Option String) (temperature : Option Rat)
    (max_tokens : Option Nat) : Except String ModelResponse :=
  let model := default_model.getD "gpt-4o-mini"
  let payload := openai_build_payload model prompt system temperature max_tokens
  match net payload with
  | .raised msg _elapsed => .error msg
  | .response status text json elapsed =>
      if 400 ≤ status then
        .ok { model := "openai", output := "", latency_ms := elapsed, error := some text }
      else
        match json with
        | .error exc => .error exc
        | .ok parsed =>
            .ok { model := "openai", output := parsed.content, latency_ms := elapsed
                , finish_reason := parsed.finish_reason, usage := parsed.usage, error := none }

/-! ### Session store (`services/storage.py`) -/

/-- Embeds `ChatStorage`: the `sessions` dict keyed by session id, as an
association list (first hit wins, matching dict semantics since ids are
unique). -/
structure ChatStorage where
  sessions : List (String × ChatSession)
deriving Repr, DecidableEq

/-- Dict lookup `self.sessions.get(session_id)`. -/
def ChatStorage.get_session (st : ChatStorage) (session_id : String) : Option ChatSession :=
  match st.sessions.find? (fun p => p.1 == session_id) with
  | some p => some p.2
  | none => none

/-- In-place mutation of the stored session object: every entry under
`session_id` is replaced by the updated session (there is at most one). -/
def setSession (l : List (String × ChatSession)) (session_id : String) (s : ChatSession) :
    List (String × ChatSession) :=
  l.map (fun p => if p.1 == session_id then (p.1, s) else p)

/-- Embeds `ChatStorage.add_message` (`storage.py`, lines 33–40).  The wall
clock read `datetime.now(timezone.utc).isoformat()` is passed in as `now`.
Returns the value Python returns (the updated session, or `None` when the id
is unknown) together with the post-call store. -/
def ChatStorage.add_message (st : ChatStorage) (session_id : String) (message : ChatMessage)
    (now : String) : Option ChatSession × ChatStorage :=
  match st.get_session session_id with
  | none => (none, st)
  | some session =>
      let updated := { session with
        messages := session.messages ++ [message], updated_at := now }
      (some updated, ⟨setSession st.sessions session_id updated⟩)

/-! ### Context builder and the session-scoped endpoint (`routers/chat.py`,
`add_message`) -/

/-- Python slice `msgs[-5:]`: the trailing five entries (all of them when the
list is shorter). -/
def lastFive (msgs : List ChatMessage) : List ChatMessage :=
  msgs.drop (msgs.length - 5)

/-- Embeds the context loop (`routers/chat.py`, lines 106–110): iterate over
`session.messages[-5:]`, keep only `role == "user"` entries, format each as
`"User: {content}"`. -/
def contextFromMessages (msgs : List ChatMessage) : List String :=
  ((lastFive msgs).filter (fun m => m.role == "user")).map (fun m => "User: " ++ m.content)

/-- Embeds lines 112–116: the enhanced prompt is the new content, unless the
context list is non-empty, in which case the fixed header wraps the
`"\n\n"`-joined context lines and the current question. -/
def enhancedPromptFrom (msgs : List ChatMessage) (content : String) : String :=
  let context_messages := contextFromMessages msgs
  if context_messages = [] then content
  else
    "Previous conversation:\n" ++ String.intercalate "\n\n" context_messages ++
      "\n\nCurrent question: " ++ content

/-- Observable outcome of one `POST /sessions/{id}/messages` request:
`response = none` embeds the 404 `HTTPException`; `requests` records the
`ChatRequest` values built for `call_single_model` (lines 119–125); `storage`
is the store after the handler returns. -/
structure HandlerOutput where
  response : Option ChatResponse
  requests : List ChatRequest
  storage : ChatStorage
deriving Repr, DecidableEq

/-- Embeds the `add_message` endpoint (`routers/chat.py`, lines 86–138).
The four wall-clock reads are passed in order: `t1` (user-message timestamp,
line 101), `t2` (store update for the first append, `storage.py` line 39),
`t3` (assistant-message timestamp, line 133), `t4` (store update for the
second append).

In the source, the local `session` obtained on line 93 aliases the object the
store holds, and `chat_storage.add_message(session_id, user_message)` on line
103 appends to that same object's `messages` list in place; the context loop
on line 107 therefore iterates over the post-append list, which is
`session.messages ++ [user_message]` — this aliasing is embedded explicitly
below. -/
def add_message_handler (gen : GenBehavior) (st : ChatStorage) (session_id : String)
    (payload : AddMessageRequest) (t1 t2 t3 t4 : String) : HandlerOutput :=
  match st.get_session session_id with
  | none => ⟨none, [], st⟩
  | some session =>
      let user_message : ChatMessage :=
        { role := "user", content := payload.content, timestamp := t1 }
      let st1 := (st.add_message session_id user_message t2).2
      let messages_now := session.messages ++ [user_message]
      let enhanced_prompt := enhancedPromptFrom messages_now payload.content
      let mkReq : String → ChatRequest := fun model_key =>
        { prompt := enhanced_prompt
        , models := [model_key]
        , system_prompt := payload.system_prompt
        , temperature := payload.temperature
        , max_tokens := payload.max_tokens }
      let results := payload.models.map (fun model_key =>
        call_single_model gen model_key (mkReq model_key))
      let assistant_message : ChatMessage :=
        { role := "assistant", content := enhanced_prompt, timestamp := t3
        , model_responses := some results }
      let st2 := (st1.add_message session_id assistant_message t4).2
      ⟨some ⟨results⟩, payload.models.map mkReq, st2⟩

/-! ### API-key guard (`services/auth.py`) -/

/-- Embeds `verify_api_key` (`auth.py`, lines 5–10).  `api_key_env` is the
`API_KEY` environment variable (`none` = unset); `x_api_key` is the inbound
`X-API-Key` header (`none` = absent, which FastAPI replaces by the declared
default `""`).  `.error` embeds the 401 `HTTPException`. -/
def verify_api_key (api_key_env : Option String) (x_api_key : Option String) :
    Except String Unit :=
  let header_value := x_api_key.getD ""
  let expected := api_key_env.getD ""
  if expected = "" then .ok ()
  else if header_value ≠ expected then .error "Invalid API key"
  else .ok ()

/-! ### Shared concrete fixtures for witnesses and counterexamples -/

/-- Stub adapter behavior: every provider answers `"4"` in 10 ms. -/
def stubGen : GenBehavior :=
  fun k _ _ _ _ => .ok { model := k, output := "4", latency_ms := 10 }

/-- Stub adapter behavior: every adapter coroutine raises with message `"boom"`. -/
def failGen : GenBehavior :=
  fun _ _ _ _ _ => .error "boom"

/-- Stub adapter behavior: every adapter coroutine raises with message `"down"`. -/
def genDown : GenBehavior :=
  fun _ _ _ _ _ => .error "down"

/-- Network oracle that raises a connection error after 123 ms. -/
def failNet : OpenAIPayload → HttpOutcome :=
  fun _ => .raised "Connection error" 123

/-- The `GenBehavior` induced by routing every key to the embedded OpenAI
adapter with network oracle `net` and `OPENAI_MODEL` value `dm`. -/
def openaiGen (net : OpenAIPayload → HttpOutcome) (dm : Option String) : GenBehavior :=
  fun _ prompt system temperature max_tokens =>
    openai_generate net dm prompt system temperature max_tokens

/-- The end-to-end scenario request of spec §8. -/
def req0 : ChatRequest :=
  { prompt := "2+2?", models := ["openai", "unknown", "openai"]
  , system_prompt := none, temperature := some (7 / 10), max_tokens := none }

/-- Single-provider request fixture. -/
def req1 : ChatRequest :=
  { prompt := "2+2?", models := ["openai"]
  , system_prompt := none, temperature := some (7 / 10), max_tokens := none }

/-- Fixture timestamp. -/
def ts0 : String := "2026-10-01T00:00:00+00:00"

/-- Fixture session with an empty message history. -/
def session0 : ChatSession :=
  { id := "s1", title := "T", messages := [], created_at := ts0, updated_at := ts0 }

/-- Fixture store holding exactly `session0`. -/
def st0 : ChatStorage := ⟨[("s1", session0)]⟩

/-- Fixture add-message payload: content `"hello"` to provider `"openai"`. -/
def payload0 : AddMessageRequest :=
  { session_id := "s1", content := "hello", models := ["openai"]
  , system_prompt := none, temperature := some (7 / 10), max_tokens := none }

/-- Fixture chat message. -/
def msg0 : ChatMessage := { role := "user", content := "hi", timestamp := ts0 }

/-! ### Store helper lemmas -/

/-- Replacing the entry under a key that the store resolves makes subsequent
lookups of that key return the replacement. -/
theorem get_session_after_set (l : List (String × ChatSession)) (sid : String)
    (s' : ChatSession) (h : (ChatStorage.get_session ⟨l⟩ sid).isSome) :
    ChatStorage.get_session ⟨setSession l sid s'⟩ sid = some s' := by
  induction l with
  | nil => simp [ChatStorage.get_session, List.find?] at h
  | cons p l ih =>
      by_cases hp : p.1 == sid
      · simp [ChatStorage.get_session, setSession, List.find?, hp]
      · simp only [ChatStorage.get_session, setSession, List.map_cons, List.find?, hp,
          Bool.false_eq_true, if_false, cond_false] at h ⊢
        exact ih h

/-- Unfolding `ChatStorage.add_message` on a resolvable session id. -/
theorem add_message_found (st : ChatStorage) (sid : String) (m : ChatMessage) (now : String)
    (s : ChatSession) (h : st.get_session sid = some s) :
    st.add_message sid m now =
      (some { s with messages := s.messages ++ [m], updated_at := now },
       ⟨setSession st.sessions sid { s with messages := s.messages ++ [m], updated_at := now }⟩) := by
  unfold ChatStorage.add_message
  rw [h]

/-! ### Claim theorems -/

/-- C1: for every request with a provider-identifier list of length N
(duplicates allowed and preserved), `chat` returns exactly N results, and the
result at every index `i` is exactly the dispatch of the identifier at input
index `i` — order matches the input and each duplicate occurrence produces its
own entry. -/
theorem C1_dispatch_cardinality_and_order (gen : GenBehavior) (p : ChatRequest) :
    (chat gen p).responses.length = p.models.length ∧
    ∀ i : Nat, (chat gen p).responses[i]? =
      (p.models[i]?).map (fun model_key => call_single_model gen model_key p) := by
  refine ⟨by simp [chat], fun i => ?_⟩
  simp [chat, List.getElem?_map]

/-- C3: no individual provider failure fails the dispatch: `call_single_model`
is total (the `try/except` converts every raised exception into a result), the
response always has exactly as many entries as input identifiers, and even
when every adapter call raises, every entry merely carries an error. -/
theorem C3_failure_isolation (gen : GenBehavior) (p : ChatRequest) :
    (chat gen p).responses.length = p.models.length ∧
    ((∀ k prompt system temperature max_tokens,
        ∃ e, gen k prompt system temperature max_tokens = .error e) →
      ∀ r ∈ (chat gen p).responses, r.error.isSome) := by
  refine ⟨by simp [chat], fun hall r hr => ?_⟩
  simp only [chat, List.mem_map] at hr
  obtain ⟨k, _, rfl⟩ := hr
  unfold call_single_model
  by_cases hmem : k ∈ PROVIDER_MAP_keys
  · obtain ⟨e, he⟩ := hall k p.prompt p.system_prompt p.temperature p.max_tokens
    simp [hmem, he]
  · simp [hmem]

/-- Witness for C3: the all-raising behavior satisfies the hypothesis; both
results of a two-provider request carry errors and the cardinality is kept. -/
theorem C3_failure_isolation_witness :
    (chat failGen req0).responses.length = req0.models.length ∧
    ∀ r ∈ (chat failGen req0).responses, r.error.isSome := by
  have h := C3_failure_isolation failGen req0
  exact ⟨h.1, h.2 (fun _ _ _ _ _ => ⟨"boom", rfl⟩)⟩

/-- C4: a provider identifier absent from the registry yields, at its own
position, the synthetic result echoing the key with error `"Unknown
provider"`, empty output and zero latency, while the batch keeps its full
cardinality. -/
theorem C4_unknown_provider (gen : GenBehavior) (p : ChatRequest) (i : Nat) (k : String)
    (hi : p.models[i]? = some k) (hk : k ∉ PROVIDER_MAP_keys) :
    (chat gen p).responses[i]? =
      some { model := k, output := "", latency_ms := 0, error := some "Unknown provider" } ∧
    (chat gen p).responses.length = p.models.length := by
  refine ⟨?_, by simp [chat]⟩
  simp [chat, List.getElem?_map, hi, call_single_model, hk]

/-- Witness for C4: position 1 of the spec §8 scenario request holds the
identifier `"unknown"`, which is not registered. -/
theorem C4_unknown_provider_witness :
    (chat stubGen req0).responses[1]? =
      some { model := "unknown", output := "", latency_ms := 0
           , error := some "Unknown provider" } ∧
    (chat stubGen req0).responses.length = req0.models.length :=
  C4_unknown_provider stubGen req0 1 "unknown" rfl (by decide)

/-- C5 counterexample: with a network oracle that raises a connection error
after 123 ms of elapsed wall-clock time, the adapter's exception propagates to
`call_single_model`, whose `except` branch reports `latency_ms = 0` — not the
123 ms elapsed up to the point of failure that the claim requires (while
`error` is set and `output` is empty). -/
theorem C5_counterexample_raise_latency_zero :
    (call_single_model (openaiGen failNet none) "openai" req1).latency_ms = 0 ∧
    (call_single_model (openaiGen failNet none) "openai" req1).error =
      some "Connection error" ∧
    (call_single_model (openaiGen failNet none) "openai" req1).output = "" ∧
    (0 : Nat) ≠ 123 := by
  refine ⟨rfl, rfl, rfl, by decide⟩

/-- C5 as amended: every failed adapter call still yields `error` set and
`output` empty, but `latency_ms` equals the elapsed wall-clock time only when
the failure is a non-2xx HTTP response (status ≥ 400); when the adapter raises
(transport error or timeout during the POST, or an undecodable body making
`resp.json()`/the extraction chain raise on a sub-400 response), the exception
is caught outside the timing scope and `latency_ms` is 0. -/
theorem C5_failed_call_fields (net : OpenAIPayload → HttpOutcome) (dm : Option String)
    (req : ChatRequest) :
    (∀ status text json elapsed,
        net (openai_build_payload (dm.getD "gpt-4o-mini") req.prompt req.system_prompt
            req.temperature req.max_tokens) = .response status text json elapsed →
        400 ≤ status →
        call_single_model (openaiGen net dm) "openai" req =
          { model := "openai", output := "", latency_ms := elapsed, error := some text }) ∧
    (∀ msg elapsed,
        net (openai_build_payload (dm.getD "gpt-4o-mini") req.prompt req.system_prompt
            req.temperature req.max_tokens) = .raised msg elapsed →
        call_single_model (openaiGen net dm) "openai" req =
          { model := "openai", output := "", latency_ms := 0, error := some msg }) ∧
    (∀ status text exc elapsed,
        net (openai_build_payload (dm.getD "gpt-4o-mini") req.prompt req.system_prompt
            req.temperature req.max_tokens) = .response status text (.error exc) elapsed →
        status < 400 →
        call_single_model (openaiGen net dm) "openai" req =
          { model := "openai", output := "", latency_ms := 0, error := some exc }) := by
  refine ⟨?_, ?_, ?_⟩
  · intro status text json elapsed hnet hs
    unfold call_single_model openaiGen openai_generate
    simp only [show ("openai" ∈ PROVIDER_MAP_keys) = True by simp [PROVIDER_MAP_keys],
      if_true, hnet]
    simp [hnet, hs]
  · intro msg elapsed hnet
    unfold call_single_model openaiGen openai_generate
    simp only [show ("openai" ∈ PROVIDER_MAP_keys) = True by simp [PROVIDER_MAP_keys],
      if_true, hnet]
  · intro status text exc elapsed hnet hs
    unfold call_single_model openaiGen openai_generate
    simp only [show ("openai" ∈ PROVIDER_MAP_keys) = True by simp [PROVIDER_MAP_keys],
      if_true, hnet]
    simp [Nat.not_le.mpr hs]

/-- Witness for C5 as amended: a 500 response after 77 ms yields
`latency_ms = 77` with the response text as error; a raised connection error
after 123 ms yields `latency_ms = 0`; a 200 response after 55 ms whose body
fails to decode yields `latency_ms = 0` with the decode error. -/
theorem C5_failed_call_fields_witness :
    call_single_model (openaiGen (fun _ => .response 500 "server error" (.error "x") 77) none)
        "openai" req1 =
      { model := "openai", output := "", latency_ms := 77, error := some "server error" } ∧
    call_single_model (openaiGen failNet none) "openai" req1 =
      { model := "openai", output := "", latency_ms := 0, error := some "Connection error" } ∧
    call_single_model
        (openaiGen (fun _ => .response 200 "not json" (.error "Expecting value") 55) none)
        "openai" req1 =
      { model := "openai", output := "", latency_ms := 0, error := some "Expecting value" } :=
  ⟨(C5_failed_call_fields (fun _ => .response 500 "server error" (.error "x") 77) none req1).1
      500 "server error" (.error "x") 77 rfl (by decide),
   (C5_failed_call_fields failNet none req1).2.1 "Connection error" 123 rfl,
   (C5_failed_call_fields (fun _ => .response 200 "not json" (.error "Expecting value") 55)
      none req1).2.2 200 "not json" "Expecting value" 55 rfl (by decide)⟩

/-- C2: the claim requires the context window to be the trailing 5 messages
*before* the new user message is appended, so that a session with zero prior
messages gets the new content verbatim with no header.  In the source, the
local `session` aliases the stored object that `chat_storage.add_message`
mutates in place before the context loop runs, so the window already contains
the new user message: on a zero-prior-message session with content `"hello"`,
every provider request carries the header-wrapped prompt (duplicating the
current question inside "Previous conversation:") instead of `"hello"`. -/
theorem C2_new_message_included_in_context :
    (add_message_handler genDown st0 "s1" payload0 "t1" "t2" "t3" "t4").requests.map
        (fun r => r.prompt) =
      ["Previous conversation:\nUser: hello\n\nCurrent question: hello"] ∧
    "Previous conversation:\nUser: hello\n\nCurrent question: hello" ≠ "hello" := by
  exact ⟨rfl, by decide⟩

/-- C6: within the context window the code actually uses (the trailing 5
messages of the session list at context-build time — see C2 for which list
that is), every provider request carries the prompt made of exactly the
`role = "user"` entries of the window, in their original order, each formatted
as `"User: {content}"`, joined by a blank line, under the fixed
`"Previous conversation:"` header and followed by the current question. -/
theorem C6_context_user_lines (gen : GenBehavior) (st : ChatStorage) (sid : String)
    (payload : AddMessageRequest) (t1 t2 t3 t4 : String) (s : ChatSession)
    (h : st.get_session sid = some s)
    (hne : (lastFive (s.messages ++
        [{ role := "user", content := payload.content, timestamp := t1 }])).filter
          (fun m => m.role == "user") ≠ []) :
    (add_message_handler gen st sid payload t1 t2 t3 t4).requests.map (fun r => r.prompt) =
      List.replicate payload.models.length
        ("Previous conversation:\n" ++
          String.intercalate "\n\n"
            (((lastFive (s.messages ++
                [{ role := "user", content := payload.content, timestamp := t1 }])).filter
                  (fun m => m.role == "user")).map (fun m => "User: " ++ m.content)) ++
          "\n\nCurrent question: " ++ payload.content) := by
  simp only [add_message_handler, h, List.map_map]
  have hmap : (((lastFive (s.messages ++
      [{ role := "user", content := payload.content, timestamp := t1 }])).filter
        (fun m => m.role == "user")).map (fun m => "User: " ++ m.content)) ≠ [] := by
    simpa [List.map_eq_nil_iff] using hne
  simp only [enhancedPromptFrom, contextFromMessages, if_neg hmap]
  simp [Function.comp_def, List.map_const']

/-- Witness for C6: on a fresh session and content `"hello"`, the single
request prompt is the header around the one user line of the window. -/
theorem C6_context_user_lines_witness :
    (add_message_handler genDown st0 "s1" payload0 "t1" "t2" "t3" "t4").requests.map
        (fun r => r.prompt) =
      List.replicate payload0.models.length
        "Previous conversation:\nUser: hello\n\nCurrent question: hello" := by
  have hres := C6_context_user_lines genDown st0 "s1" payload0 "t1" "t2" "t3" "t4"
    session0 rfl (by decide)
  exact hres.trans (by decide)

/-- Two successive appends through the store leave the session retrievable
with the second appended message as the last entry of its message list. -/
theorem add_message_twice_getLast (st : ChatStorage) (sid : String) (m1 m2 : ChatMessage)
    (tA tB : String) (s : ChatSession) (h : st.get_session sid = some s) :
    ∃ s2, (ChatStorage.add_message (st.add_message sid m1 tA).2 sid m2 tB).2.get_session sid =
        some s2 ∧
      s2.messages.getLast? = some m2 := by
  rw [add_message_found st sid m1 tA s h]
  have hg1 := get_session_after_set st.sessions sid
    { s with messages := s.messages ++ [m1], updated_at := tA } (by simp [h])
  rw [add_message_found _ sid m2 tB _ hg1]
  exact ⟨_, get_session_after_set _ sid _ (by simp [hg1]), by simp⟩

/-- C7: in every session-scoped turn, the enhanced prompt — not the raw new
content — is the prompt of every per-provider request, and the appended
assistant message stores that same enhanced prompt as its `content` while the
actual model outputs live in its `model_responses`. -/
theorem C7_enhanced_prompt_sent_and_stored (gen : GenBehavior) (st : ChatStorage)
    (sid : String) (payload : AddMessageRequest) (t1 t2 t3 t4 : String) (s : ChatSession)
    (h : st.get_session sid = some s) :
    (add_message_handler gen st sid payload t1 t2 t3 t4).requests.map (fun r => r.prompt) =
      List.replicate payload.models.length
        (enhancedPromptFrom (s.messages ++
          [{ role := "user", content := payload.content, timestamp := t1 }]) payload.content) ∧
    (add_message_handler gen st sid payload t1 t2 t3 t4).response =
      some ⟨payload.models.map (fun model_key =>
        call_single_model gen model_key
          { prompt := enhancedPromptFrom (s.messages ++
              [{ role := "user", content := payload.content, timestamp := t1 }]) payload.content
          , models := [model_key], system_prompt := payload.system_prompt
          , temperature := payload.temperature, max_tokens := payload.max_tokens })⟩ ∧
    ∃ s2, (add_message_handler gen st sid payload t1 t2 t3 t4).storage.get_session sid =
        some s2 ∧
      s2.messages.getLast? = some
        { role := "assistant"
        , content := enhancedPromptFrom (s.messages ++
            [{ role := "user", content := payload.content, timestamp := t1 }]) payload.content
        , timestamp := t3
        , model_responses := some (payload.models.map (fun model_key =>
            call_single_model gen model_key
              { prompt := enhancedPromptFrom (s.messages ++
                  [{ role := "user", content := payload.content, timestamp := t1 }])
                  payload.content
              , models := [model_key], system_prompt := payload.system_prompt
              , temperature := payload.temperature, max_tokens := payload.max_tokens })) } := by
  refine ⟨?_, ?_, ?_⟩
  · simp [add_message_handler, h, List.map_map, Function.comp_def, List.map_const']
  · simp [add_message_handler, h]
  · simp only [add_message_handler, h]
    exact add_message_twice_getLast st sid _ _ t2 t4 s h

/-- Witness for C7: on the fresh-session fixture, the response carries the
single (failed) provider result and the stored assistant message holds the
enhanced prompt with that result list. -/
theorem C7_enhanced_prompt_sent_and_stored_witness :
    (add_message_handler genDown st0 "s1" payload0 "t1" "t2" "t3" "t4").response =
      some ⟨[{ model := "openai", output := "", latency_ms := 0, error := some "down" }]⟩ ∧
    ∃ s2, (add_message_handler genDown st0 "s1" payload0 "t1" "t2" "t3" "t4").storage.get_session
        "s1" = some s2 ∧
      s2.messages.getLast? = some
        { role := "assistant"
        , content := "Previous conversation:\nUser: hello\n\nCurrent question: hello"
        , timestamp := "t3"
        , model_responses :=
            some [{ model := "openai", output := "", latency_ms := 0, error := some "down" }] } := by
  have hres := C7_enhanced_prompt_sent_and_stored genDown st0 "s1" payload0
    "t1" "t2" "t3" "t4" session0 rfl
  refine ⟨hres.2.1.trans (by decide), ?_⟩
  obtain ⟨s2, hs2, hlast⟩ := hres.2.2
  exact ⟨s2, hs2, hlast.trans (by decide)⟩

/-- C8: appending to an existing session grows `messages` by exactly one,
preserves all prior entries and their order, sets `updated_at` to the new
clock reading (hence ≥ the previous `updated_at` whenever the clock has not
gone backwards), and leaves `created_at`, `id` and `title` unchanged; on an
unknown session id the operation returns `None` and the store is unmodified. -/
theorem C8_store_append_frame (st : ChatStorage) (sid : String) (m : ChatMessage)
    (now : String) :
    (∀ s, st.get_session sid = some s → s.updated_at ≤ now →
      ∃ s', (st.add_message sid m now).1 = some s' ∧
        (st.add_message sid m now).2.get_session sid = some s' ∧
        s'.messages = s.messages ++ [m] ∧
        s'.messages.length = s.messages.length + 1 ∧
        (∀ i : Nat, i < s.messages.length → s'.messages[i]? = s.messages[i]?) ∧
        s.updated_at ≤ s'.updated_at ∧ s'.updated_at = now ∧
        s'.created_at = s.created_at ∧ s'.id = s.id ∧ s'.title = s.title) ∧
    (st.get_session sid = none → st.add_message sid m now = (none, st)) := by
  constructor
  · intro s h hle
    rw [add_message_found st sid m now s h]
    refine ⟨_, rfl, get_session_after_set st.sessions sid _ (by simp [h]), rfl, by simp,
      fun i hi => ?_, hle, rfl, rfl, rfl, rfl⟩
    simp [List.getElem?_append_left hi]
  · intro h
    unfold ChatStorage.add_message
    rw [h]

/-- Witness for C8: appending to the fixture session (whose `updated_at`
equals the new clock reading, discharging monotonicity) and appending to an
unknown id. -/
theorem C8_store_append_frame_witness :
    (∃ s', (st0.add_message "s1" msg0 ts0).1 = some s' ∧
      (st0.add_message "s1" msg0 ts0).2.get_session "s1" = some s' ∧
      s'.messages = session0.messages ++ [msg0] ∧
      s'.messages.length = session0.messages.length + 1 ∧
      (∀ i : Nat, i < session0.messages.length → s'.messages[i]? = session0.messages[i]?) ∧
      session0.updated_at ≤ s'.updated_at ∧ s'.updated_at = ts0 ∧
      s'.created_at = session0.created_at ∧ s'.id = session0.id ∧ s'.title = session0.title) ∧
    st0.add_message "missing" msg0 ts0 = (none, st0) :=
  ⟨(C8_store_append_frame st0 "s1" msg0 ts0).1 session0 rfl (le_refl _),
   (C8_store_append_frame st0 "missing" msg0 ts0).2 rfl⟩

/-- C9: the guard rejects exactly when `API_KEY` is set to a non-empty value
and the (defaulted-to-`""`) header differs from it; when `API_KEY` is unset or
empty, every request — including one with no header — is accepted. -/
theorem C9_api_key_guard (env hdr : Option String) :
    ((∃ e, verify_api_key env hdr = .error e) ↔
      env.getD "" ≠ "" ∧ hdr.getD "" ≠ env.getD "") ∧
    (env.getD "" = "" → verify_api_key env hdr = .ok ()) := by
  unfold verify_api_key
  by_cases h1 : env.getD "" = "" <;> by_cases h2 : hdr.getD "" = env.getD "" <;>
    simp [h1, h2]

/-- Witness for C9: unset key accepts a missing header; empty key accepts any
header; non-empty key rejects a missing header and accepts a matching one. -/
theorem C9_api_key_guard_witness :
    verify_api_key none none = .ok () ∧
    verify_api_key (some "") (some "anything") = .ok () ∧
    (∃ e, verify_api_key (some "secret") none = .error e) ∧
    ¬ ∃ e, verify_api_key (some "secret") (some "secret") = .error e := by
  refine ⟨(C9_api_key_guard none none).2 rfl,
    (C9_api_key_guard (some "") (some "anything")).2 rfl,
    (C9_api_key_guard (some "secret") none).1.mpr ⟨by decide, by decide⟩, fun hex => ?_⟩
  exact ((C9_api_key_guard (some "secret") (some "secret")).1.mp hex).2 rfl

/-- Successful validation of a `/chat` body validates its raw `temperature`
field to the temperature the resulting request carries. -/
theorem parseChatRequest_temperature (raw : RawChatRequest) (r : ChatRequest)
    (hok : parseChatRequest raw = .ok r) :
    validate_temperature raw.temperature = .ok r.temperature := by
  unfold parseChatRequest at hok
  cases ht : validate_temperature raw.temperature with
  | error e =>
      rw [ht] at hok
      split at hok <;> split at hok <;>
        simp_all [Bind.bind, Except.bind, pure, Except.pure]
  | ok t =>
      rw [ht] at hok
      cases hmt : validate_max_tokens raw.max_tokens with
      | error e =>
          rw [hmt] at hok
          split at hok <;> split at hok <;>
            simp_all [Bind.bind, Except.bind, pure, Except.pure]
      | ok mt =>
          rw [hmt] at hok
          split at hok <;> split at hok <;>
            simp_all [Bind.bind, Except.bind, pure, Except.pure]
          rw [← hok]

/-- Successful validation of an add-message body validates its raw
`temperature` field to the temperature the resulting request carries. -/
theorem parseAddMessageRequest_temperature (raw : RawAddMessageRequest)
    (r : AddMessageRequest) (hok : parseAddMessageRequest raw = .ok r) :
    validate_temperature raw.temperature = .ok r.temperature := by
  unfold parseAddMessageRequest at hok
  cases ht : validate_temperature raw.temperature with
  | error e =>
      rw [ht] at hok
      simp_all [Bind.bind, Except.bind, pure, Except.pure]
  | ok t =>
      rw [ht] at hok
      cases hmt : validate_max_tokens raw.max_tokens with
      | error e =>
          rw [hmt] at hok
          simp_all [Bind.bind, Except.bind, pure, Except.pure]
      | ok mt =>
          rw [hmt] at hok
          simp_all [Bind.bind, Except.bind, pure, Except.pure]
          rw [← hok]

/-- C10: a chat or add-message body that omits `temperature` validates to a
request carrying `temperature = 0.7` (a value inside the declared `[0.0, 2.0]`
bounds), and the adapter wire payload built from such a request therefore
contains a `temperature` field set to 0.7 rather than omitting it. -/
theorem C10_temperature_default (rawC : RawChatRequest) (rc : ChatRequest)
    (rawA : RawAddMessageRequest) (ra : AddMessageRequest)
    (hC : rawC.temperature = none) (hA : rawA.temperature = none)
    (hokC : parseChatRequest rawC = .ok rc) (hokA : parseAddMessageRequest rawA = .ok ra) :
    rc.temperature = some (7 / 10) ∧ ra.temperature = some (7 / 10) ∧
    (0 : Rat) ≤ 7 / 10 ∧ (7 / 10 : Rat) ≤ 2 ∧
    ∀ model_name : String,
      (openai_build_payload model_name rc.prompt rc.system_prompt rc.temperature
          rc.max_tokens).temperature = some (7 / 10) := by
  have h1 := parseChatRequest_temperature rawC rc hokC
  have h2 := parseAddMessageRequest_temperature rawA ra hokA
  rw [hC] at h1
  rw [hA] at h2
  simp only [validate_temperature, Except.ok.injEq] at h1 h2
  refine ⟨h1.symm, h2.symm, by norm_num, by norm_num, fun model_name => ?_⟩
  simp [openai_build_payload, ← h1]

/-- Witness for C10: concrete bodies omitting `temperature` parse successfully
and carry 0.7. -/
theorem C10_temperature_default_witness :
    ({ prompt := "hi", models := ["openai"], system_prompt := none
     , temperature := some (7 / 10), max_tokens := none } : ChatRequest).temperature =
      some (7 / 10) ∧
    ({ session_id := "s1", content := "hi", models := ["openai"], system_prompt := none
     , temperature := some (7 / 10), max_tokens := none } : AddMessageRequest).temperature =
      some (7 / 10) ∧
    (0 : Rat) ≤ 7 / 10 ∧ (7 / 10 : Rat) ≤ 2 ∧
    ∀ model_name : String,
      (openai_build_payload model_name "hi" none (some (7 / 10)) none).temperature =
        some (7 / 10) :=
  C10_temperature_default
    { prompt := "hi", models := ["openai"], system_prompt := none
    , temperature := none, max_tokens := none }
    { prompt := "hi", models := ["openai"], system_prompt := none
    , temperature := some (7 / 10), max_tokens := none }
    { session_id := "s1", content := "hi", models := ["openai"], system_prompt := none
    , temperature := none, max_tokens := none }
    { session_id := "s1", content := "hi", models := ["openai"], system_prompt := none
    , temperature := some (7 / 10), max_tokens := none }
    rfl rfl (by rfl) (by rfl)
